import Mathlib

/-!
Shallow embedding of the court-case tracker Flask application (`app.py`):
the mock-data generator shared by the four court scrapers, the analytics
engine (`CaseAnalytics`), and the `POST /api/search` route together with
its persistence writes.  Randomness (`random.choice`, `random.randint`,
`random.uniform`), wall-clock readings and the outcome of the database
session commit are modelled as explicit parameters; the database is an
explicit state record threaded through the route.
-/

namespace CourtCase

/-- Python `dict.get(key, default)` on a string-valued dict, modelled as an
association list. -/
def dictGet (d : List (String × String)) (k dflt : String) : String :=
  match d.find? (fun p => p.1 == k) with
  | some p => p.2
  | none => dflt

/-- One decimal digit of a character, `none` when the character is not a
digit. -/
def charDigit (c : Char) : Option Nat :=
  if c.isDigit then some (c.toNat - 48) else none

/-- Value of a decimal numeral in which single underscores may separate
digits, as CPython's `int()` grouping allows: at least one digit, digits
required at both ends and on both sides of every underscore.  `lastDigit`
records whether the previous accepted character was a digit (initially
`false`, so an empty or underscore-led numeral is rejected). -/
def digitsVal : List Char → Nat → Bool → Option Nat
  | [], acc, lastDigit => if lastDigit then some acc else none
  | c :: rest, acc, lastDigit =>
    match charDigit c with
    | some d => digitsVal rest (acc * 10 + d) true
    | none =>
      if c = '_' ∧ lastDigit then digitsVal rest acc false
      else none

/-- Strip leading and trailing whitespace from a character list. -/
def trimChars (cs : List Char) : List Char :=
  ((cs.dropWhile Char.isWhitespace).reverse.dropWhile Char.isWhitespace).reverse

/-- Python `int(x)` applied to `data.get('filing_year')`: `none` models the
`TypeError`/`ValueError` raised on a missing field or a non-integer string,
`some n` the successful conversion.  Surrounding whitespace, a single
leading sign and underscore grouping are accepted, as in Python (ASCII
digits only). -/
def pyToInt (o : Option String) : Option Int :=
  match o with
  | none => none
  | some s =>
    match trimChars s.toList with
    | [] => none
    | c :: rest =>
      if c = '-' then (digitsVal rest 0 false).map (fun n => -(n : Int))
      else if c = '+' then (digitsVal rest 0 false).map (fun n => (n : Int))
      else (digitsVal (c :: rest) 0 false).map (fun n => (n : Int))

/-- Successful scraper result: `case_data`, `orders`, `response_time_ms`,
`success`, as assembled by each `scrape_case_data` method. -/
structure ScrapeResult where
  case_data : List (String × String)
  orders : List (String × String)
  response_time_ms : Int
  success : Bool
deriving DecidableEq, Repr

/-- Row of the `CaseQuery` model: one query-log entry per search attempt.
`parsed_data` (a JSON dump of the result in the source) is kept structured. -/
structure CaseQuery where
  court_name : String
  case_type : String
  case_number : String
  filing_year : Int
  query_timestamp : Int
  success : Bool
  response_time_ms : Option Int
  raw_response : Option String
  parsed_data : Option ScrapeResult
deriving DecidableEq, Repr

/-- Row of the `CaseData` model: one record per distinct case number
(`case_number` carries a unique constraint).  Date columns keep the
ISO-formatted strings that `strptime` parses in the route. -/
structure CaseData where
  id : Nat
  case_number : String
  court_name : String
  petitioner : String
  respondent : String
  filing_date : String
  next_hearing_date : String
  case_status : String
  judge_name : String
deriving DecidableEq, Repr

/-- Row of the `CaseOrder` model, referencing its owning `CaseData` row. -/
structure CaseOrder where
  case_id : Nat
  order_date : String
  order_description : String
  pdf_link : Option String
  judge_name : Option String
deriving DecidableEq, Repr

/-- The database visible to readers: the three tables plus the next
auto-increment id for `CaseData`. -/
structure DBState where
  queries : List CaseQuery
  cases : List CaseData
  orders : List CaseOrder
  nextCaseId : Nat
deriving DecidableEq, Repr

/-- The empty database. -/
def db0 : DBState := { queries := [], cases := [], orders := [], nextCaseId := 0 }

/-- The outcomes of the `random.choice` / `random.randint` draws made by
`BaseScraper.generate_mock_data`, passed in as an oracle. -/
structure MockRand where
  petitioner : String
  respondent : String
  filingMonth : Nat
  filingDay : Nat
  hearingMonth : Nat
  hearingDay : Nat
  status : String
  judge : String
  orderDay : Nat
  orderDesc : String
deriving DecidableEq, Repr

/-- Two-digit zero padding, as in the `:02d` format specifier. -/
def pad2 (n : Nat) : String :=
  if n < 10 then "0" ++ toString n else toString n

/-- The `case_types` display-label dict of `generate_mock_data`, read with
default `'Civil Suit'`. -/
def caseTypeLabel (case_type : String) : String :=
  if case_type = "civil" then "Civil Suit"
  else if case_type = "criminal" then "Criminal Case"
  else if case_type = "writ" then "Writ Petition"
  else if case_type = "appeal" then "Civil Appeal"
  else if case_type = "revision" then "Civil Revision"
  else if case_type = "bail" then "Bail Application"
  else if case_type = "pil" then "Public Interest Litigation"
  else "Civil Suit"

/-- The court-specific case-number label of `generate_mock_data`
(lines 137-145 of `app.py`). -/
def formatCaseNum (court_name case_type case_number : String) (filing_year : Int) : String :=
  if court_name = "delhi-high" then
    caseTypeLabel case_type ++ " " ++ case_number ++ "/" ++ toString filing_year
  else if court_name = "supreme" then
    "Civil Appeal No. " ++ case_number ++ " of " ++ toString filing_year
  else if court_name = "bombay-high" then
    "Writ Petition No. " ++ case_number ++ " of " ++ toString filing_year
  else
    case_type.toUpper ++ "/" ++ case_number ++ "/" ++ toString filing_year

/-- `BaseScraper.generate_mock_data`: builds the case payload dict (seven
keys) and the two order payloads; every random draw comes from `r`. -/
def generate_mock_data (case_type case_number : String) (filing_year : Int)
    (court_name : String) (r : MockRand) :
    List (String × String) × List (String × String) :=
  let case_num := formatCaseNum court_name case_type case_number filing_year
  let filing_date := toString filing_year ++ "-" ++ pad2 r.filingMonth ++ "-" ++ pad2 r.filingDay
  let next_hearing := "2025-" ++ pad2 r.hearingMonth ++ "-" ++ pad2 r.hearingDay
  let case_data : List (String × String) :=
    [("case_number", case_num),
     ("petitioner", r.petitioner),
     ("respondent", r.respondent),
     ("filing_date", filing_date),
     ("next_hearing", next_hearing),
     ("status", r.status),
     ("judge", r.judge)]
  let orders : List (String × String) :=
    [("2025-07-" ++ pad2 r.orderDay, r.orderDesc),
     (filing_date, "Petition filed. Urgent hearing requested.")]
  (case_data, orders)

/-- `DelhiHighCourtScraper.scrape_case_data`: the simulated delay is dropped,
its measured duration enters as the oracle `rt`; the body never raises, so
the error component is always `none`. -/
def delhi_scrape_case_data (case_type case_number : String) (filing_year : Int)
    (r : MockRand) (rt : Int) : Option ScrapeResult × Option String :=
  let p := generate_mock_data case_type case_number filing_year "delhi-high" r
  (some { case_data := p.1, orders := p.2, response_time_ms := rt, success := true }, none)

/-- `SupremeCourtScraper.scrape_case_data`. -/
def supreme_scrape_case_data (case_type case_number : String) (filing_year : Int)
    (r : MockRand) (rt : Int) : Option ScrapeResult × Option String :=
  let p := generate_mock_data case_type case_number filing_year "supreme" r
  (some { case_data := p.1, orders := p.2, response_time_ms := rt, success := true }, none)

/-- `BombayHighCourtScraper.scrape_case_data`. -/
def bombay_scrape_case_data (case_type case_number : String) (filing_year : Int)
    (r : MockRand) (rt : Int) : Option ScrapeResult × Option String :=
  let p := generate_mock_data case_type case_number filing_year "bombay-high" r
  (some { case_data := p.1, orders := p.2, response_time_ms := rt, success := true }, none)

/-- `ECourtsScraper.scrape_case_data`, with the district set by the route. -/
def ecourts_scrape_case_data (district : String) (case_type case_number : String)
    (filing_year : Int) (r : MockRand) (rt : Int) : Option ScrapeResult × Option String :=
  let p := generate_mock_data case_type case_number filing_year (district ++ "-district") r
  (some { case_data := p.1, orders := p.2, response_time_ms := rt, success := true }, none)

/-- The court identifiers accepted by the dispatch chain of `search_case`
(the same five ids that `GET /api/courts` lists). -/
def supportedCourts : List String :=
  ["delhi-high", "supreme", "bombay-high", "delhi-district", "faridabad-district"]

/-- The scraper dispatch of `search_case` (lines 430-441): `none` is the
`else` branch for an unsupported court. -/
def scrapeFor (court case_type case_number : String) (filing_year : Int)
    (r : MockRand) (rt : Int) : Option (Option ScrapeResult × Option String) :=
  if court = "delhi-high" then
    some (delhi_scrape_case_data case_type case_number filing_year r rt)
  else if court = "supreme" then
    some (supreme_scrape_case_data case_type case_number filing_year r rt)
  else if court = "bombay-high" then
    some (bombay_scrape_case_data case_type case_number filing_year r rt)
  else if court = "delhi-district" ∨ court = "faridabad-district" then
    let district := if court = "delhi-district" then "delhi" else "faridabad"
    some (ecourts_scrape_case_data district case_type case_number filing_year r rt)
  else none

/-- The prediction dict returned by `CaseAnalytics.predict_case_outcome`. -/
structure Prediction where
  favorable_probability : ℚ
  estimated_disposal_days : Int
  confidence : ℚ
  key_factors : List String
deriving DecidableEq, Repr

/-- The outcomes of the random draws made by `predict_case_outcome`
(`court_load = random.randint(50, 200)`, `disposal = random.randint(30, 180)`,
`conf = random.uniform(0.7, 0.9)`). -/
structure PredictRand where
  court_load : Int
  disposal : Int
  conf : ℚ
deriving DecidableEq, Repr

/-- `CaseAnalytics.predict_case_outcome`: base score 0.5, three conditional
bonuses, capped at 0.95. -/
def predict_case_outcome (case_data : List (String × String)) (court_load : Int)
    (disposal : Int) (conf : ℚ) : Prediction :=
  let score : ℚ := 0.5
  let case_age_days : Int := 100
  let case_type := dictGet case_data "case_type" "civil"
  let score := if case_age_days > 365 then score + 0.2 else score
  let score := if case_type = "bail" ∨ case_type = "writ" then score + 0.1 else score
  let score := if court_load < 100 then score + 0.1 else score
  { favorable_probability := min score 0.95,
    estimated_disposal_days := disposal,
    confidence := conf,
    key_factors := ["Case age", "Court efficiency", "Case type complexity"] }

/-- The `CaseData` row inserted by `search_case` on first sighting of a case
number (Python reads absent keys as `None`; the empty string stands for
`None` here — all seven keys are always present in generated payloads). -/
def mkCaseData (i : Nat) (court : String) (cd : List (String × String)) : CaseData :=
  { id := i,
    case_number := dictGet cd "case_number" "",
    court_name := court,
    petitioner := dictGet cd "petitioner" "",
    respondent := dictGet cd "respondent" "",
    filing_date := dictGet cd "filing_date" "",
    next_hearing_date := dictGet cd "next_hearing" "",
    case_status := dictGet cd "status" "",
    judge_name := dictGet cd "judge" "" }

/-- The `CaseOrder` row inserted for one order payload. -/
def mkCaseOrder (cid : Nat) (o : String × String) : CaseOrder :=
  { case_id := cid, order_date := o.1, order_description := o.2,
    pdf_link := none, judge_name := none }

/-- A proleptic Gregorian calendar date, as `datetime.date` holds it. -/
structure Date where
  year : Int
  month : Nat
  day : Nat
deriving DecidableEq, Repr

/-- Gregorian leap-year rule. -/
def isLeapYear (y : Int) : Bool :=
  (y % 4 = 0 && y % 100 != 0) || y % 400 = 0

/-- Number of days of month `m` of year `y`. -/
def daysInMonth (y : Int) (m : Nat) : Nat :=
  if m = 2 then (if isLeapYear y then 29 else 28)
  else if m = 4 ∨ m = 6 ∨ m = 9 ∨ m = 11 then 30
  else 31

/-- CPython strptime `%m` (regex `1[0-2]|0[1-9]|[1-9]`): one or two ASCII
digits valued 1-12, two-digit alternatives tried first; returns the value
and the unconsumed characters. -/
def parseMonth : List Char → Option (Nat × List Char)
  | c1 :: c2 :: rest =>
    match charDigit c1, charDigit c2 with
    | some d1, some d2 =>
      if (d1 = 1 ∧ d2 ≤ 2) ∨ (d1 = 0 ∧ 1 ≤ d2) then some (d1 * 10 + d2, rest)
      else if 1 ≤ d1 then some (d1, c2 :: rest)
      else none
    | some d1, none => if 1 ≤ d1 then some (d1, c2 :: rest) else none
    | none, _ => none
  | [c1] =>
    match charDigit c1 with
    | some d1 => if 1 ≤ d1 then some (d1, []) else none
    | none => none
  | [] => none

/-- CPython strptime `%d` (regex `3[01]|[12]\d|0[1-9]|[1-9]`): one or two
ASCII digits valued 1-31, two-digit alternatives tried first. -/
def parseDay : List Char → Option (Nat × List Char)
  | c1 :: c2 :: rest =>
    match charDigit c1, charDigit c2 with
    | some d1, some d2 =>
      if (d1 = 3 ∧ d2 ≤ 1) ∨ d1 = 1 ∨ d1 = 2 ∨ (d1 = 0 ∧ 1 ≤ d2) then
        some (d1 * 10 + d2, rest)
      else if 1 ≤ d1 then some (d1, c2 :: rest)
      else none
    | some d1, none => if 1 ≤ d1 then some (d1, c2 :: rest) else none
    | none, _ => none
  | [c1] =>
    match charDigit c1 with
    | some d1 => if 1 ≤ d1 then some (d1, []) else none
    | none => none
  | [] => none

/-- `datetime.strptime(s, '%Y-%m-%d').date()`: `%Y` matches exactly four
digits, then a literal dash, `%m` and `%d` as above, the whole string must
be consumed, and the `datetime` constructor then requires year at least 1
(`MINYEAR`) and the day to exist in that month; `none` models the
`ValueError` raised otherwise. -/
def strptimeYMD (s : String) : Option Date :=
  match s.toList with
  | y1 :: y2 :: y3 :: y4 :: '-' :: rest =>
    match charDigit y1, charDigit y2, charDigit y3, charDigit y4 with
    | some a, some b, some c, some d =>
      let year : Int := ((((a * 10 + b) * 10 + c) * 10 + d : Nat) : Int)
      match parseMonth rest with
      | some (m, '-' :: rest2) =>
        match parseDay rest2 with
        | some (day, []) =>
          if 1 ≤ year ∧ day ≤ daysInMonth year m then
            some { year := year, month := m, day := day }
          else none
        | _ => none
      | _ => none
    | _, _, _, _ => none
  | _ => none

/-- One HTTP response of `POST /api/search`, with the error bodies the route
produces. -/
inductive SearchResp where
  | ok (result : ScrapeResult) (ai_prediction : Prediction)
  | badRequest (error : String)
  | serverError (error : String)
deriving DecidableEq, Repr

/-- HTTP status code of a `SearchResp`. -/
def respStatus : SearchResp → Nat
  | .ok _ _ => 200
  | .badRequest _ => 400
  | .serverError _ => 500

/-- The `favorable_probability` of the `ai_prediction` attached to a 200
response, `none` for error responses. -/
def respFavorable : SearchResp → Option ℚ
  | .ok _ p => some p.favorable_probability
  | _ => none

/-- The request body of `POST /api/search` as the route reads it with
`data.get(...)`; `filing_year` stays raw because the route converts it with
`int(...)`. -/
structure SearchReq where
  court : String
  case_type : String
  case_number : String
  filing_year : Option String
deriving DecidableEq, Repr

/-- The updated `query_record` of a successful search: success flag set,
response time and parsed payload recorded. -/
def mkQueryRecordOk (req : SearchReq) (y now : Int) (res : ScrapeResult) : CaseQuery :=
  { court_name := req.court, case_type := req.case_type,
    case_number := req.case_number, filing_year := y, query_timestamp := now,
    success := true, response_time_ms := some res.response_time_ms,
    raw_response := none, parsed_data := some res }

/-- The `search_case` route (lines 410-493 of `app.py`).  `now` is the row
timestamp, `rt` the measured response time, `commitOk` whether
`db.session.flush()`/`db.session.commit()` succeed; a failed commit leaves
the transaction unapplied, so the state is returned unchanged and the outer
`except` yields the generic 500 body.  On the new-case branch the route
parses the generated filing date, next hearing date (lines 465-466) and
every order date (line 477) with `datetime.strptime(..., '%Y-%m-%d')`; any
`ValueError` there (for example a filing year whose decimal form is not
exactly four digits) propagates to the catch-all before anything is
committed, returning the generic 500 with the database unchanged. -/
def search_case (st : DBState) (req : SearchReq) (r : MockRand) (rt : Int)
    (pr : PredictRand) (now : Int) (commitOk : Bool) : DBState × SearchResp :=
  match pyToInt req.filing_year with
  | none => (st, .serverError "Internal server error")
  | some filing_year =>
    match scrapeFor req.court req.case_type req.case_number filing_year r rt with
    | none => (st, .badRequest "Unsupported court selected")
    | some (resultOpt, errorOpt) =>
      match errorOpt with
      | some e =>
        let query_record : CaseQuery :=
          { court_name := req.court, case_type := req.case_type,
            case_number := req.case_number, filing_year := filing_year,
            query_timestamp := now, success := false, response_time_ms := none,
            raw_response := some e, parsed_data := none }
        if commitOk then
          ({ st with queries := st.queries ++ [query_record] }, .serverError e)
        else (st, .serverError "Internal server error")
      | none =>
        match resultOpt with
        | none => (st, .serverError "Internal server error")
        | some result =>
          let case_data := result.case_data
          let query_record : CaseQuery := mkQueryRecordOk req filing_year now result
          let cn := dictGet case_data "case_number" ""
          let afterCase? : Option DBState :=
            match st.cases.find? (fun c => c.case_number == cn) with
            | some _ => some st
            | none =>
              match strptimeYMD (dictGet case_data "filing_date" ""),
                  strptimeYMD (dictGet case_data "next_hearing" "") with
              | some _, some _ =>
                if result.orders.all (fun o => (strptimeYMD o.1).isSome) then
                  some { st with
                    cases := st.cases ++ [mkCaseData st.nextCaseId req.court case_data],
                    orders := st.orders ++ result.orders.map (mkCaseOrder st.nextCaseId),
                    nextCaseId := st.nextCaseId + 1 }
                else none
              | _, _ => none
          match afterCase? with
          | none => (st, .serverError "Internal server error")
          | some afterCase =>
            if commitOk then
              ({ afterCase with queries := afterCase.queries ++ [query_record] },
               .ok result (predict_case_outcome case_data pr.court_load pr.disposal pr.conf))
            else (st, .serverError "Internal server error")

/-- The dict returned by `CaseAnalytics.get_dashboard_stats`. -/
structure DashStats where
  total_searches : Nat
  success_rate : ℚ
  avg_response_time : Int
deriving DecidableEq, Repr

/-- Rounding to the nearest integer with ties to even, the rule Python's
`round` uses. -/
def roundHalfEven (x : ℚ) : ℤ :=
  let f := ⌊x⌋
  let r := x - (f : ℚ)
  if r < 1/2 then f
  else if 1/2 < r then f + 1
  else if f % 2 = 0 then f else f + 1

/-- Python `round(x, 1)`. -/
def pyRound1 (x : ℚ) : ℚ :=
  (roundHalfEven (x * 10) : ℚ) / 10

/-- Python `int(x)` on a number: truncation toward zero. -/
def pyTrunc (x : ℚ) : ℤ :=
  Int.tdiv x.num (x.den : Int)

/-- `CaseAnalytics.get_dashboard_stats`: counts and averages over the
`CaseQuery` rows whose timestamp is at or after the start of the current
day (`today`).  The SQL `AVG` ignores NULL `response_time_ms` values and the
`scalar() or 0` step maps an empty average to 0. -/
def get_dashboard_stats (today : Int) (rows : List CaseQuery) : DashStats :=
  let total_searches := (rows.filter (fun q => decide (today ≤ q.query_timestamp))).length
  let successful_searches :=
    (rows.filter (fun q => decide (today ≤ q.query_timestamp) && q.success)).length
  let success_rate : ℚ :=
    if total_searches > 0 then
      (successful_searches : ℚ) / (total_searches : ℚ) * 100
    else 0
  let rts : List Int :=
    (rows.filter (fun q => decide (today ≤ q.query_timestamp) && q.success)).filterMap
      (fun q => q.response_time_ms)
  let avg_response_time : ℚ :=
    if rts.length = 0 then 0 else ((rts.sum : Int) : ℚ) / (rts.length : ℚ)
  { total_searches := total_searches,
    success_rate := pyRound1 success_rate,
    avg_response_time := pyTrunc avg_response_time }

/-- The previous calendar day. -/
def predDay (d : Date) : Date :=
  if d.day > 1 then { year := d.year, month := d.month, day := d.day - 1 }
  else if d.month > 1 then
    { year := d.year, month := d.month - 1, day := daysInMonth d.year (d.month - 1) }
  else { year := d.year - 1, month := 12, day := 31 }

/-- `d - timedelta(days = n)`. -/
def subDays (d : Date) : Nat → Date
  | 0 => d
  | n + 1 => predDay (subDays d n)

/-- `strftime('%Y-%m')`. -/
def monthLabel (d : Date) : String :=
  toString d.year ++ "-" ++ pad2 d.month

/-- Chronological order on dates (year, then month, then day). -/
def dateLE (a b : Date) : Prop :=
  a.year < b.year ∨
    (a.year = b.year ∧ (a.month < b.month ∨ (a.month = b.month ∧ a.day ≤ b.day)))

/-- `CaseAnalytics.get_case_trends`: six entries, the i-th labelled with the
month of `current_date - timedelta(days = 30*i)` and carrying
`counts i = random.randint(50, 200)`, reversed so the oldest entry comes
first. -/
def get_case_trends (current : Date) (counts : Nat → Int) : List (String × Int) :=
  ((List.range 6).map (fun i => (monthLabel (subDays current (30 * i)), counts i))).reverse

/-- Whether the `datetime.strptime` calls of the search's case-saving branch
all succeed: trivially true when the case number already exists (no parse
runs there), otherwise the generated filing date, next hearing date and
every order date must parse as `%Y-%m-%d`. -/
def strptimeAllOk (st : DBState) (res : ScrapeResult) : Bool :=
  match st.cases.find?
      (fun c => c.case_number == dictGet res.case_data "case_number" "") with
  | some _ => true
  | none =>
    (strptimeYMD (dictGet res.case_data "filing_date" "")).isSome &&
    (strptimeYMD (dictGet res.case_data "next_hearing" "")).isSome &&
    res.orders.all (fun o => (strptimeYMD o.1).isSome)

/-- The database after all per-request writes of a successful search commit:
the success query-log row plus, when the case number is new, the `CaseData`
row and its `CaseOrder` rows — the write set `db.session.commit()` makes
durable at once. -/
def appliedState (st : DBState) (req : SearchReq) (y : Int) (res : ScrapeResult)
    (now : Int) : DBState :=
  let cn := dictGet res.case_data "case_number" ""
  let query_record : CaseQuery := mkQueryRecordOk req y now res
  match st.cases.find? (fun c => c.case_number == cn) with
  | some _ => { st with queries := st.queries ++ [query_record] }
  | none =>
    { queries := st.queries ++ [query_record],
      cases := st.cases ++ [mkCaseData st.nextCaseId req.court res.case_data],
      orders := st.orders ++ res.orders.map (mkCaseOrder st.nextCaseId),
      nextCaseId := st.nextCaseId + 1 }

/-- A fixed outcome for the mock-data random draws, used in concrete runs. -/
def r0 : MockRand :=
  { petitioner := "State of Delhi", respondent := "Union of India",
    filingMonth := 4, filingDay := 5, hearingMonth := 9, hearingDay := 10,
    status := "pending", judge := "Justice A K Sharma", orderDay := 7,
    orderDesc := "Notice issued to respondents." }

/-- A fixed outcome for the prediction random draws. -/
def pr0 : PredictRand := { court_load := 120, disposal := 40, conf := 0.8 }

/-- A well-formed Delhi High Court search request. -/
def reqDelhi : SearchReq :=
  { court := "delhi-high", case_type := "writ", case_number := "123",
    filing_year := some "2023" }

/-- A request naming a court outside the supported enumeration. -/
def reqMars : SearchReq :=
  { court := "mars-high", case_type := "writ", case_number := "123",
    filing_year := some "2023" }

/-- A request whose filing year is not an integer string. -/
def reqBadYear : SearchReq :=
  { court := "delhi-high", case_type := "writ", case_number := "123",
    filing_year := some "abc" }

/-- The scraper result of `reqDelhi` under `r0` with a 5 ms response time. -/
def resDelhi : ScrapeResult :=
  { case_data := (generate_mock_data "writ" "123" 2023 "delhi-high" r0).1,
    orders := (generate_mock_data "writ" "123" 2023 "delhi-high" r0).2,
    response_time_ms := 5, success := true }

/-- Four query-log rows timestamped today, three of them successful. -/
def statRows43 : List CaseQuery :=
  [{ court_name := "delhi-high", case_type := "writ", case_number := "1",
     filing_year := 2023, query_timestamp := 1, success := true,
     response_time_ms := some 10, raw_response := none, parsed_data := none },
   { court_name := "supreme", case_type := "civil", case_number := "2",
     filing_year := 2022, query_timestamp := 2, success := true,
     response_time_ms := some 20, raw_response := none, parsed_data := none },
   { court_name := "bombay-high", case_type := "appeal", case_number := "3",
     filing_year := 2021, query_timestamp := 3, success := true,
     response_time_ms := some 30, raw_response := none, parsed_data := none },
   { court_name := "delhi-district", case_type := "bail", case_number := "4",
     filing_year := 2020, query_timestamp := 4, success := false,
     response_time_ms := none, raw_response := some "boom", parsed_data := none }]

/-- A current date on which duplicate month labels arise. -/
def dateJul31 : Date := { year := 2025, month := 7, day := 31 }

/-- **C4**: for every supported court, `generate_mock_data` formats the
case-number label with the court's exact convention — delhi-high as
`"<TypeLabel> <number>/<year>"`, supreme as
`"Civil Appeal No. <number> of <year>"`, bombay-high as
`"Writ Petition No. <number> of <year>"`, the two district courts as
`"<TYPE_UPPER>/<number>/<year>"` — and the concrete delhi-high search for a
writ, case number 123, filing year 2023 yields the label
`"Writ Petition 123/2023"`. -/
theorem case_number_formats_C4 :
    (∀ (case_type case_number : String) (filing_year : Int),
      formatCaseNum "delhi-high" case_type case_number filing_year =
        caseTypeLabel case_type ++ " " ++ case_number ++ "/" ++ toString filing_year) ∧
    (∀ (case_type case_number : String) (filing_year : Int),
      formatCaseNum "supreme" case_type case_number filing_year =
        "Civil Appeal No. " ++ case_number ++ " of " ++ toString filing_year) ∧
    (∀ (case_type case_number : String) (filing_year : Int),
      formatCaseNum "bombay-high" case_type case_number filing_year =
        "Writ Petition No. " ++ case_number ++ " of " ++ toString filing_year) ∧
    (∀ (case_type case_number : String) (filing_year : Int),
      formatCaseNum "delhi-district" case_type case_number filing_year =
        case_type.toUpper ++ "/" ++ case_number ++ "/" ++ toString filing_year) ∧
    (∀ (case_type case_number : String) (filing_year : Int),
      formatCaseNum "faridabad-district" case_type case_number filing_year =
        case_type.toUpper ++ "/" ++ case_number ++ "/" ++ toString filing_year) ∧
    (∀ r : MockRand,
      dictGet (generate_mock_data "writ" "123" 2023 "delhi-high" r).1 "case_number" "" =
        "Writ Petition 123/2023") ∧
    caseTypeLabel "writ" = "Writ Petition" := by
  refine ⟨?_, ?_, ?_, ?_, ?_, ?_, ?_⟩ <;> intros <;> rfl

/-- **C7**: `predict_case_outcome` returns
`favorable_probability = min(score, 0.95)` with the score built from the base
0.5, the (dead) case-age bonus, the bail/writ case-type bonus and the
court-load bonus; hence it is at most 0.95, the estimated disposal days lie
in [30, 180] and the confidence in [0.7, 0.9] (both are the random draws,
constrained to the ranges `random.randint(30, 180)` and
`random.uniform(0.7, 0.9)` produce), and the three factor labels are
returned unconditionally. -/
theorem predict_case_outcome_C7 (case_data : List (String × String))
    (court_load disposal : Int) (conf : ℚ)
    (hd1 : 30 ≤ disposal) (hd2 : disposal ≤ 180)
    (hc1 : 7/10 ≤ conf) (hc2 : conf ≤ 9/10) :
    (predict_case_outcome case_data court_load disposal conf).favorable_probability =
      min ((1/2 : ℚ) + (if (100 : Int) > 365 then 1/5 else 0) +
        (if dictGet case_data "case_type" "civil" = "bail" ∨
            dictGet case_data "case_type" "civil" = "writ" then 1/10 else 0) +
        (if court_load < 100 then 1/10 else 0)) (19/20) ∧
    (predict_case_outcome case_data court_load disposal conf).favorable_probability ≤ 19/20 ∧
    30 ≤ (predict_case_outcome case_data court_load disposal conf).estimated_disposal_days ∧
    (predict_case_outcome case_data court_load disposal conf).estimated_disposal_days ≤ 180 ∧
    7/10 ≤ (predict_case_outcome case_data court_load disposal conf).confidence ∧
    (predict_case_outcome case_data court_load disposal conf).confidence ≤ 9/10 ∧
    (predict_case_outcome case_data court_load disposal conf).key_factors =
      ["Case age", "Court efficiency", "Case type complexity"] := by
  refine ⟨?_, ?_, hd1, hd2, hc1, hc2, rfl⟩
  · simp only [predict_case_outcome]
    split_ifs <;> norm_num
  · simp only [predict_case_outcome]
    have : (0.95 : ℚ) = 19/20 := by norm_num
    rw [this]
    exact min_le_right _ _

/-- Closed instance of `predict_case_outcome_C7`. -/
theorem predict_case_outcome_C7_witness :
    (30 : Int) ≤ 30 ∧ (30 : Int) ≤ 180 ∧
    ((7 : ℚ)/10 ≤ 7/10 ∧ (7 : ℚ)/10 ≤ 9/10) ∧
    ((predict_case_outcome [] 50 30 (7/10)).favorable_probability =
      min ((1/2 : ℚ) + (if (100 : Int) > 365 then 1/5 else 0) +
        (if dictGet [] "case_type" "civil" = "bail" ∨
            dictGet [] "case_type" "civil" = "writ" then 1/10 else 0) +
        (if (50 : Int) < 100 then 1/10 else 0)) (19/20) ∧
    (predict_case_outcome [] 50 30 (7/10)).favorable_probability ≤ 19/20 ∧
    30 ≤ (predict_case_outcome [] 50 30 (7/10)).estimated_disposal_days ∧
    (predict_case_outcome [] 50 30 (7/10)).estimated_disposal_days ≤ 180 ∧
    7/10 ≤ (predict_case_outcome [] 50 30 (7/10)).confidence ∧
    (predict_case_outcome [] 50 30 (7/10)).confidence ≤ 9/10 ∧
    (predict_case_outcome [] 50 30 (7/10)).key_factors =
      ["Case age", "Court efficiency", "Case type complexity"]) :=
  ⟨by norm_num, by norm_num, ⟨le_refl _, by norm_num⟩,
    predict_case_outcome_C7 [] 50 30 (7/10) (by norm_num) (by norm_num)
      (le_refl _) (by norm_num)⟩

/-- **C8**: for every supported court identifier, the dispatched
`scrape_case_data` returns a non-null result with `success = true` and a
`none` error component — no failure path is reachable (request fields are
strings, and the scraper bodies raise no exception on strings). -/
theorem scrape_case_data_supported_C8 (court : String) (h : court ∈ supportedCourts)
    (case_type case_number : String) (filing_year : Int) (r : MockRand) (rt : Int) :
    ∃ res : ScrapeResult,
      scrapeFor court case_type case_number filing_year r rt = some (some res, none) ∧
      res.success = true := by
  fin_cases h <;> exact ⟨_, rfl, rfl⟩

/-- Closed instance of `scrape_case_data_supported_C8`. -/
theorem scrape_case_data_supported_C8_witness :
    "supreme" ∈ supportedCourts ∧
    ∃ res : ScrapeResult,
      scrapeFor "supreme" "civil" "9" 2020 r0 3 = some (some res, none) ∧
      res.success = true :=
  ⟨by decide, scrape_case_data_supported_C8 "supreme" (by decide) "civil" "9" 2020 r0 3⟩

/-- **C1 (amended)**: for a request whose filing year parses but whose court
identifier is outside the supported enumeration, the route returns the 400
"Unsupported court selected" error and leaves the database unchanged — in
particular, no `CaseQuery` row is written for the attempt (the constructed
`query_record` is never added to the session on this path). -/
theorem search_case_unsupported_C1 (st : DBState) (req : SearchReq) (r : MockRand)
    (rt : Int) (pr : PredictRand) (now : Int) (commitOk : Bool) (y : Int)
    (hy : pyToInt req.filing_year = some y) (hc : req.court ∉ supportedCourts) :
    search_case st req r rt pr now commitOk =
      (st, SearchResp.badRequest "Unsupported court selected") := by
  simp only [supportedCourts, List.mem_cons, List.not_mem_nil, or_false, not_or] at hc
  obtain ⟨h1, h2, h3, h4, h5⟩ := hc
  simp [search_case, hy, scrapeFor, h1, h2, h3, h4, h5]

/-- Closed instance of `search_case_unsupported_C1`. -/
theorem search_case_unsupported_C1_witness :
    pyToInt reqMars.filing_year = some 2023 ∧ reqMars.court ∉ supportedCourts ∧
    search_case db0 reqMars r0 5 pr0 0 true =
      (db0, SearchResp.badRequest "Unsupported court selected") :=
  ⟨by decide, by decide,
    search_case_unsupported_C1 db0 reqMars r0 5 pr0 0 true 2023 (by decide) (by decide)⟩

/-- **C1 counterexample**: on the concrete unsupported-court request
`reqMars` against the empty database, the route does return the 400
"Unsupported court selected" error, but the resulting query-log table is
empty — no `CaseQuery` row with `success = false` (or any row at all) is
written, contradicting the claim's persistence conjunct. -/
theorem search_case_unsupported_C1_cex :
    respStatus (search_case db0 reqMars r0 5 pr0 0 true).2 = 400 ∧
    (search_case db0 reqMars r0 5 pr0 0 true).2 =
      SearchResp.badRequest "Unsupported court selected" ∧
    (search_case db0 reqMars r0 5 pr0 0 true).1.queries = [] ∧
    ¬ ∃ q : CaseQuery, q ∈ (search_case db0 reqMars r0 5 pr0 0 true).1.queries ∧
        q.success = false := by
  refine ⟨rfl, rfl, rfl, ?_⟩
  rintro ⟨q, hq, -⟩
  have h : (search_case db0 reqMars r0 5 pr0 0 true).1.queries = [] := rfl
  rw [h] at hq
  exact List.not_mem_nil q hq

/-- **C2 (amended)**: a request with a missing or malformed `filing_year`
(anything `int(...)` rejects) is caught by the route's catch-all handler and
surfaced as the generic 500 "Internal server error" response, with the
database left unchanged; no 4xx validation error is produced on this path. -/
theorem search_case_badyear_C2 (st : DBState) (req : SearchReq) (r : MockRand)
    (rt : Int) (pr : PredictRand) (now : Int) (commitOk : Bool)
    (hy : pyToInt req.filing_year = none) :
    search_case st req r rt pr now commitOk =
      (st, SearchResp.serverError "Internal server error") := by
  simp [search_case, hy]

/-- Closed instance of `search_case_badyear_C2`. -/
theorem search_case_badyear_C2_witness :
    pyToInt reqBadYear.filing_year = none ∧
    search_case db0 reqBadYear r0 5 pr0 0 true =
      (db0, SearchResp.serverError "Internal server error") :=
  ⟨by decide, search_case_badyear_C2 db0 reqBadYear r0 5 pr0 0 true (by decide)⟩

/-- **C2 counterexample**: the concrete request `reqBadYear` (filing year
`"abc"`) yields the generic internal error with status 500, not a 4xx
validation error, contradicting the claim. -/
theorem search_case_badyear_C2_cex :
    respStatus (search_case db0 reqBadYear r0 5 pr0 0 true).2 = 500 ∧
    (search_case db0 reqBadYear r0 5 pr0 0 true).2 =
      SearchResp.serverError "Internal server error" := by
  exact ⟨rfl, rfl⟩

/-- Rounding fixes every integer. -/
theorem roundHalfEven_intCast (n : ℤ) : roundHalfEven (n : ℚ) = n := by
  unfold roundHalfEven
  rw [Int.floor_intCast]
  norm_num

/-- `round(0, 1) = 0`. -/
theorem pyRound1_zero : pyRound1 0 = 0 := by
  unfold pyRound1
  have h : (0 : ℚ) * 10 = ((0 : ℤ) : ℚ) := by norm_num
  rw [h, roundHalfEven_intCast]
  norm_num

/-- `round(75.0, 1) = 75.0`. -/
theorem pyRound1_75 : pyRound1 75 = 75 := by
  unfold pyRound1
  have h : (75 : ℚ) * 10 = ((750 : ℤ) : ℚ) := by norm_num
  rw [h, roundHalfEven_intCast]
  norm_num

/-- `int(0) = 0`. -/
theorem pyTrunc_zero : pyTrunc 0 = 0 := rfl

/-- **C5**: over the rows with timestamp at or after the start of the current
day, `get_dashboard_stats` reports the total count, the success rate
`successes/total * 100` rounded to one decimal (0 when the total is 0), and
the average `response_time_ms` of today's successful rows converted with
`int(...)` (0 when there are none); in particular an empty log yields
`success_rate = 0` and `avg_response_time = 0`, and 4 rows with 3 successes
yield `success_rate = 75.0`. -/
theorem get_dashboard_stats_C5 (today : Int) (rows : List CaseQuery) :
    (get_dashboard_stats today rows).total_searches =
      rows.countP (fun q => decide (today ≤ q.query_timestamp)) ∧
    (get_dashboard_stats today rows).success_rate =
      (if rows.countP (fun q => decide (today ≤ q.query_timestamp)) = 0 then 0
       else pyRound1
         ((rows.countP (fun q => decide (today ≤ q.query_timestamp) && q.success) : ℚ) /
          (rows.countP (fun q => decide (today ≤ q.query_timestamp)) : ℚ) * 100)) ∧
    (get_dashboard_stats today rows).avg_response_time =
      (if (rows.filter (fun q => decide (today ≤ q.query_timestamp) && q.success)).filterMap
            (fun q => q.response_time_ms) = [] then 0
       else pyTrunc
         (((((rows.filter (fun q => decide (today ≤ q.query_timestamp) && q.success)).filterMap
               (fun q => q.response_time_ms)).sum : Int) : ℚ) /
          ((((rows.filter (fun q => decide (today ≤ q.query_timestamp) && q.success)).filterMap
               (fun q => q.response_time_ms)).length : Nat) : ℚ))) ∧
    (get_dashboard_stats 0 ([] : List CaseQuery)).total_searches = 0 ∧
    (get_dashboard_stats 0 ([] : List CaseQuery)).success_rate = 0 ∧
    (get_dashboard_stats 0 ([] : List CaseQuery)).avg_response_time = 0 ∧
    (get_dashboard_stats 0 statRows43).total_searches = 4 ∧
    (get_dashboard_stats 0 statRows43).success_rate = 75 := by
  refine ⟨?_, ?_, ?_, rfl, ?_, ?_, by decide, ?_⟩
  · simp [get_dashboard_stats, List.countP_eq_length_filter]
  · simp only [get_dashboard_stats, List.countP_eq_length_filter]
    by_cases h : (rows.filter (fun q => decide (today ≤ q.query_timestamp))).length = 0
    · have h2 : ¬ (rows.filter (fun q => decide (today ≤ q.query_timestamp))).length > 0 := by
        omega
      simp only [h, h2, if_true, if_false, if_neg, if_pos]
      exact pyRound1_zero
    · have h2 : (rows.filter (fun q => decide (today ≤ q.query_timestamp))).length > 0 := by
        omega
      simp [h, h2]
  · simp only [get_dashboard_stats]
    by_cases h : (rows.filter (fun q => decide (today ≤ q.query_timestamp) && q.success)).filterMap
        (fun q => q.response_time_ms) = []
    · simp only [h, List.length_nil, if_pos rfl, if_true]
      exact pyTrunc_zero
    · have h2 : ((rows.filter (fun q => decide (today ≤ q.query_timestamp) && q.success)).filterMap
          (fun q => q.response_time_ms)).length ≠ 0 := by
        simpa [List.length_eq_zero] using h
      simp [h, h2]
  · simp [get_dashboard_stats, pyRound1_zero]
  · simp [get_dashboard_stats, pyTrunc_zero]
  · norm_num [get_dashboard_stats, statRows43, List.filter, pyRound1_75]

/-- Reflexivity of the chronological order on dates. -/
theorem dateLE_refl (d : Date) : dateLE d d := by
  unfold dateLE
  omega

/-- Transitivity of the chronological order on dates. -/
theorem dateLE_trans {a b c : Date} (hab : dateLE a b) (hbc : dateLE b c) :
    dateLE a c := by
  unfold dateLE at *
  omega

/-- Going back one day never moves a date forward. -/
theorem predDay_le (d : Date) : dateLE (predDay d) d := by
  unfold predDay dateLE
  split_ifs <;> (simp; try omega)

/-- Going back more days never yields a later date. -/
theorem subDays_add_le (d : Date) (n k : Nat) :
    dateLE (subDays d (n + k)) (subDays d n) := by
  induction k with
  | zero => exact dateLE_refl _
  | succ k ih => exact dateLE_trans (predDay_le _) ih

/-- Monotonicity of `subDays` with respect to the number of days removed. -/
theorem subDays_le_subDays (d : Date) {m n : Nat} (h : m ≤ n) :
    dateLE (subDays d n) (subDays d m) := by
  have h2 : n = m + (n - m) := by omega
  rw [h2]
  exact subDays_add_le d m (n - m)

set_option maxRecDepth 10000 in
/-- **C9 (amended)**: `get_case_trends` returns exactly 6 entries, ordered
oldest first (the underlying dates, stepping back 30 days per entry, are
chronologically non-decreasing along the list), each with a count in
[50, 200]; the j-th entry is labelled with the year-month of
`current - 30*(5-j)` days, which is not in general one distinct label per
calendar month. -/
theorem get_case_trends_C9 (current : Date) (counts : Nat → Int)
    (h : ∀ i, i < 6 → 50 ≤ counts i ∧ counts i ≤ 200) :
    (get_case_trends current counts).length = 6 ∧
    (∀ e ∈ get_case_trends current counts, 50 ≤ e.2 ∧ e.2 ≤ 200) ∧
    (∀ j, j < 6 → (get_case_trends current counts)[j]? =
      some (monthLabel (subDays current (30 * (5 - j))), counts (5 - j))) ∧
    (∀ j k, j < k → k < 6 →
      dateLE (subDays current (30 * (5 - j))) (subDays current (30 * (5 - k)))) := by
  have hlist : get_case_trends current counts =
      [(monthLabel (subDays current 150), counts 5),
       (monthLabel (subDays current 120), counts 4),
       (monthLabel (subDays current 90), counts 3),
       (monthLabel (subDays current 60), counts 2),
       (monthLabel (subDays current 30), counts 1),
       (monthLabel (subDays current 0), counts 0)] := rfl
  refine ⟨by rw [hlist]; rfl, ?_, ?_, ?_⟩
  · intro e he
    rw [hlist] at he
    simp only [List.mem_cons, List.not_mem_nil, or_false] at he
    rcases he with rfl | rfl | rfl | rfl | rfl | rfl
    · exact h 5 (by omega)
    · exact h 4 (by omega)
    · exact h 3 (by omega)
    · exact h 2 (by omega)
    · exact h 1 (by omega)
    · exact h 0 (by omega)
  · intro j hj
    interval_cases j <;> rw [hlist] <;> rfl
  · intro j k hjk hk
    exact subDays_le_subDays current (by omega : 30 * (5 - k) ≤ 30 * (5 - j))

/-- Closed instance of `get_case_trends_C9`. -/
theorem get_case_trends_C9_witness :
    (∀ i, i < 6 → 50 ≤ (fun _ => (50 : Int)) i ∧ (fun _ => (50 : Int)) i ≤ 200) ∧
    ((get_case_trends dateJul31 (fun _ => 50)).length = 6 ∧
     (∀ e ∈ get_case_trends dateJul31 (fun _ => 50), 50 ≤ e.2 ∧ e.2 ≤ 200) ∧
     (∀ j, j < 6 → (get_case_trends dateJul31 (fun _ => 50))[j]? =
       some (monthLabel (subDays dateJul31 (30 * (5 - j))), (fun _ => (50 : Int)) (5 - j))) ∧
     (∀ j k, j < k → k < 6 →
       dateLE (subDays dateJul31 (30 * (5 - j))) (subDays dateJul31 (30 * (5 - k))))) :=
  ⟨fun _ _ => ⟨by norm_num, by norm_num⟩,
    get_case_trends_C9 dateJul31 (fun _ => 50) (fun _ _ => ⟨by norm_num, by norm_num⟩)⟩

set_option maxRecDepth 10000 in
/-- **C9 counterexample**: on the current date 2025-07-31 the six labels are
2025-03, 2025-04, 2025-05, 2025-06, 2025-07, 2025-07 — the last two entries
share a month label (and February 2025, one of the last 6 calendar months,
is missing), so the entries are not one per of the last 6 calendar months
with distinct labels. -/
theorem get_case_trends_C9_cex :
    (get_case_trends dateJul31 (fun _ => 50)).map Prod.fst =
      ["2025-03", "2025-04", "2025-05", "2025-06", "2025-07", "2025-07"] ∧
    ¬ ((get_case_trends dateJul31 (fun _ => 50)).map Prod.fst).Nodup := by
  have hmap : (get_case_trends dateJul31 (fun _ => 50)).map Prod.fst =
      ["2025-03", "2025-04", "2025-05", "2025-06", "2025-07", "2025-07"] := rfl
  refine ⟨hmap, ?_⟩
  rw [hmap]
  decide

/-- On a supported court the dispatch returns the mock result built from the
generated payload, with a `none` error component. -/
theorem scrapeFor_supported_eq (court : String) (h : court ∈ supportedCourts)
    (ct num : String) (y : Int) (r : MockRand) (rt : Int) :
    scrapeFor court ct num y r rt =
      some (some { case_data := (generate_mock_data ct num y court r).1,
                   orders := (generate_mock_data ct num y court r).2,
                   response_time_ms := rt, success := true }, none) := by
  fin_cases h <;> rfl

/-- Reduction of the supported-court path of `search_case`: the full write
set with the 200 response lands exactly when the case-saving date parses and
the session commit all succeed; otherwise the state is unchanged and the
generic 500 body returned. -/
theorem search_case_run_eq (st : DBState) (req : SearchReq) (r : MockRand)
    (rt : Int) (pr : PredictRand) (now y : Int) (res : ScrapeResult) (commitOk : Bool)
    (hy : pyToInt req.filing_year = some y)
    (hs : scrapeFor req.court req.case_type req.case_number y r rt = some (some res, none)) :
    search_case st req r rt pr now commitOk =
      (if strptimeAllOk st res && commitOk then
        (appliedState st req y res now,
         SearchResp.ok res
           (predict_case_outcome res.case_data pr.court_load pr.disposal pr.conf))
       else (st, SearchResp.serverError "Internal server error")) := by
  simp only [search_case, hy, hs]
  cases hfind : st.cases.find?
      (fun c => c.case_number == dictGet res.case_data "case_number" "") with
  | some c =>
    cases commitOk <;> simp [strptimeAllOk, appliedState, hfind]
  | none =>
    cases hfd : strptimeYMD (dictGet res.case_data "filing_date" "") with
    | none => simp [strptimeAllOk, hfind, hfd]
    | some fd =>
      cases hnh : strptimeYMD (dictGet res.case_data "next_hearing" "") with
      | none => simp [strptimeAllOk, hfind, hnh, hfd]
      | some nh =>
        cases hall : res.orders.all (fun o => (strptimeYMD o.1).isSome) with
        | false => simp [strptimeAllOk, hfind, hfd, hnh, hall]
        | true =>
          cases commitOk <;>
            simp [strptimeAllOk, appliedState, hfind, hfd, hnh, hall]

/-- The payload generated by `generate_mock_data` carries no `case_type`
key, so `predict_case_outcome` falls back to the `'civil'` default and the
only live bonus is the court-load one. -/
theorem predict_generated_favorable (case_type case_number : String) (y : Int)
    (court_name : String) (r : MockRand) (cl disp : Int) (conf : ℚ) :
    (predict_case_outcome (generate_mock_data case_type case_number y court_name r).1
        cl disp conf).favorable_probability =
      if cl < 100 then 0.6 else 0.5 := by
  have hget : dictGet (generate_mock_data case_type case_number y court_name r).1
      "case_type" "civil" = "civil" := rfl
  have hne : ¬("civil" = "bail" ∨ "civil" = "writ") := by decide
  simp only [predict_case_outcome, hget, hne, if_false]
  by_cases h : cl < 100
  · simp only [h, if_true]
    norm_num [min_def]
  · simp only [h, if_false]
    norm_num [min_def]

/-- **C6**: a search on a supported court with a parseable filing year
commits atomically: the full write set — the query-log row plus, for a new
case number, the `CaseData` row and its `CaseOrder` rows — is durably
written exactly when the case-saving `strptime` calls and the session
commit all succeed, together with the 200 response; on a commit failure,
and likewise on a `strptime` failure raised before the commit, no partial
write remains visible (the state is returned unchanged) and the attempt
surfaces as the generic internal error. -/
theorem search_case_atomic_C6 (st : DBState) (req : SearchReq) (r : MockRand)
    (rt : Int) (pr : PredictRand) (now y : Int) (res : ScrapeResult) (commitOk : Bool)
    (hy : pyToInt req.filing_year = some y)
    (hs : scrapeFor req.court req.case_type req.case_number y r rt = some (some res, none)) :
    search_case st req r rt pr now commitOk =
      (if strptimeAllOk st res && commitOk then
        (appliedState st req y res now,
         SearchResp.ok res
           (predict_case_outcome res.case_data pr.court_load pr.disposal pr.conf))
       else (st, SearchResp.serverError "Internal server error")) ∧
    (search_case st req r rt pr now commitOk =
      (appliedState st req y res now,
       SearchResp.ok res
         (predict_case_outcome res.case_data pr.court_load pr.disposal pr.conf)) ∨
     search_case st req r rt pr now commitOk =
      (st, SearchResp.serverError "Internal server error")) := by
  have h := search_case_run_eq st req r rt pr now y res commitOk hy hs
  refine ⟨h, ?_⟩
  rw [h]
  by_cases hc : (strptimeAllOk st res && commitOk) = true
  · rw [if_pos hc]
    exact Or.inl rfl
  · rw [if_neg hc]
    exact Or.inr rfl

/-- Closed instance of `search_case_atomic_C6`. -/
theorem search_case_atomic_C6_witness :
    pyToInt reqDelhi.filing_year = some 2023 ∧
    scrapeFor reqDelhi.court reqDelhi.case_type reqDelhi.case_number 2023 r0 5 =
      some (some resDelhi, none) ∧
    ((search_case db0 reqDelhi r0 5 pr0 0 true =
        (if strptimeAllOk db0 resDelhi && true then
          (appliedState db0 reqDelhi 2023 resDelhi 0,
           SearchResp.ok resDelhi
             (predict_case_outcome resDelhi.case_data pr0.court_load pr0.disposal pr0.conf))
         else (db0, SearchResp.serverError "Internal server error"))) ∧
     (search_case db0 reqDelhi r0 5 pr0 0 true =
        (appliedState db0 reqDelhi 2023 resDelhi 0,
         SearchResp.ok resDelhi
           (predict_case_outcome resDelhi.case_data pr0.court_load pr0.disposal pr0.conf)) ∨
      search_case db0 reqDelhi r0 5 pr0 0 true =
        (db0, SearchResp.serverError "Internal server error"))) :=
  ⟨by decide, rfl,
    search_case_atomic_C6 db0 reqDelhi r0 5 pr0 0 2023 resDelhi true (by decide) rfl⟩

/-- **C3**: starting from an empty store, two successful searches whose
generated case-number labels coincide leave exactly one `CaseData` row with
that case number, with the fields written at first sighting, and no
`CaseOrder` rows beyond those created alongside the first sighting. -/
theorem search_case_no_dup_C3 (req1 req2 : SearchReq) (r1 r2 : MockRand)
    (rt1 rt2 : Int) (pr1 pr2 : PredictRand) (now1 now2 y1 y2 : Int)
    (res1 res2 : ScrapeResult)
    (hy1 : pyToInt req1.filing_year = some y1)
    (hy2 : pyToInt req2.filing_year = some y2)
    (hs1 : scrapeFor req1.court req1.case_type req1.case_number y1 r1 rt1 =
      some (some res1, none))
    (hs2 : scrapeFor req2.court req2.case_type req2.case_number y2 r2 rt2 =
      some (some res2, none))
    (hlab : dictGet res2.case_data "case_number" "" =
      dictGet res1.case_data "case_number" "")
    (hok1 : strptimeAllOk db0 res1 = true) :
    respStatus (search_case db0 req1 r1 rt1 pr1 now1 true).2 = 200 ∧
    respStatus (search_case (search_case db0 req1 r1 rt1 pr1 now1 true).1
      req2 r2 rt2 pr2 now2 true).2 = 200 ∧
    (search_case (search_case db0 req1 r1 rt1 pr1 now1 true).1
        req2 r2 rt2 pr2 now2 true).1.cases =
      [mkCaseData 0 req1.court res1.case_data] ∧
    (search_case (search_case db0 req1 r1 rt1 pr1 now1 true).1
        req2 r2 rt2 pr2 now2 true).1.orders =
      res1.orders.map (mkCaseOrder 0) ∧
    ((search_case (search_case db0 req1 r1 rt1 pr1 now1 true).1
        req2 r2 rt2 pr2 now2 true).1.cases.filter
      (fun c => c.case_number == dictGet res1.case_data "case_number" "")).length = 1 := by
  have h1 : search_case db0 req1 r1 rt1 pr1 now1 true =
      (appliedState db0 req1 y1 res1 now1,
       SearchResp.ok res1
         (predict_case_outcome res1.case_data pr1.court_load pr1.disposal pr1.conf)) := by
    have h := search_case_run_eq db0 req1 r1 rt1 pr1 now1 y1 res1 true hy1 hs1
    rw [hok1] at h
    simpa using h
  have h1state : (search_case db0 req1 r1 rt1 pr1 now1 true).1 =
      appliedState db0 req1 y1 res1 now1 := by rw [h1]
  have happ1 : appliedState db0 req1 y1 res1 now1 =
      { queries := [mkQueryRecordOk req1 y1 now1 res1],
        cases := [mkCaseData 0 req1.court res1.case_data],
        orders := res1.orders.map (mkCaseOrder 0),
        nextCaseId := 1 } := by
    simp [appliedState, db0]
  have hfind : ((search_case db0 req1 r1 rt1 pr1 now1 true).1.cases.find?
      (fun c => c.case_number == dictGet res2.case_data "case_number" "")) =
      some (mkCaseData 0 req1.court res1.case_data) := by
    rw [h1state, happ1]
    simp [List.find?, mkCaseData, hlab]
  have hok2 : strptimeAllOk (search_case db0 req1 r1 rt1 pr1 now1 true).1 res2 = true := by
    simp [strptimeAllOk, hfind]
  have h2 : search_case (search_case db0 req1 r1 rt1 pr1 now1 true).1
      req2 r2 rt2 pr2 now2 true =
      (appliedState (search_case db0 req1 r1 rt1 pr1 now1 true).1 req2 y2 res2 now2,
       SearchResp.ok res2
         (predict_case_outcome res2.case_data pr2.court_load pr2.disposal pr2.conf)) := by
    have h := search_case_run_eq (search_case db0 req1 r1 rt1 pr1 now1 true).1
      req2 r2 rt2 pr2 now2 y2 res2 true hy2 hs2
    rw [hok2] at h
    simpa using h
  have h2state : (search_case (search_case db0 req1 r1 rt1 pr1 now1 true).1
      req2 r2 rt2 pr2 now2 true).1 =
      appliedState (search_case db0 req1 r1 rt1 pr1 now1 true).1 req2 y2 res2 now2 := by
    rw [h2]
  have happ2 : appliedState (search_case db0 req1 r1 rt1 pr1 now1 true).1
      req2 y2 res2 now2 =
      { (search_case db0 req1 r1 rt1 pr1 now1 true).1 with
        queries := (search_case db0 req1 r1 rt1 pr1 now1 true).1.queries ++
          [mkQueryRecordOk req2 y2 now2 res2] } := by
    simp only [appliedState, hfind]
  refine ⟨by rw [h1]; rfl, by rw [h2]; rfl, ?_, ?_, ?_⟩
  · rw [h2state, happ2]
    simp only []
    rw [h1state, happ1]
  · rw [h2state, happ2]
    simp only []
    rw [h1state, happ1]
  · rw [h2state, happ2]
    simp only []
    rw [h1state, happ1]
    simp [mkCaseData, List.filter]

/-- Closed instance of `search_case_no_dup_C3`. -/
theorem search_case_no_dup_C3_witness :
    pyToInt reqDelhi.filing_year = some 2023 ∧
    scrapeFor reqDelhi.court reqDelhi.case_type reqDelhi.case_number 2023 r0 5 =
      some (some resDelhi, none) ∧
    dictGet resDelhi.case_data "case_number" "" =
      dictGet resDelhi.case_data "case_number" "" ∧
    strptimeAllOk db0 resDelhi = true ∧
    (respStatus (search_case db0 reqDelhi r0 5 pr0 0 true).2 = 200 ∧
     respStatus (search_case (search_case db0 reqDelhi r0 5 pr0 0 true).1
       reqDelhi r0 5 pr0 1 true).2 = 200 ∧
     (search_case (search_case db0 reqDelhi r0 5 pr0 0 true).1
         reqDelhi r0 5 pr0 1 true).1.cases =
       [mkCaseData 0 reqDelhi.court resDelhi.case_data] ∧
     (search_case (search_case db0 reqDelhi r0 5 pr0 0 true).1
         reqDelhi r0 5 pr0 1 true).1.orders =
       resDelhi.orders.map (mkCaseOrder 0) ∧
     ((search_case (search_case db0 reqDelhi r0 5 pr0 0 true).1
         reqDelhi r0 5 pr0 1 true).1.cases.filter
       (fun c => c.case_number == dictGet resDelhi.case_data "case_number" "")).length = 1) :=
  ⟨by decide, rfl, rfl, by decide,
    search_case_no_dup_C3 reqDelhi reqDelhi r0 r0 5 5 pr0 pr0 0 1 2023 2023
      resDelhi resDelhi (by decide) (by decide) rfl rfl rfl (by decide)⟩

/-- **C10**: the case payload handed to `predict_case_outcome` by the search
flow is the generated seven-key dict, which has no `case_type` key; the
case-type bonus therefore defaults to the `'civil'` branch, the case-age
bonus is dead (the constant is 100), and every committed search on a
supported court returns `favorable_probability` exactly 0.5 or 0.6. -/
theorem search_case_prediction_C10 (st : DBState) (req : SearchReq) (r : MockRand)
    (rt : Int) (pr : PredictRand) (now y : Int) (res : ScrapeResult)
    (hy : pyToInt req.filing_year = some y) (hc : req.court ∈ supportedCourts)
    (hs : scrapeFor req.court req.case_type req.case_number y r rt = some (some res, none))
    (hok : strptimeAllOk st res = true) :
    (∀ ct num cn : String,
      ((generate_mock_data ct num y cn r).1.find? (fun p => p.1 == "case_type")) = none) ∧
    (respFavorable (search_case st req r rt pr now true).2 = some (1/2) ∨
     respFavorable (search_case st req r rt pr now true).2 = some (3/5)) := by
  refine ⟨fun ct num cn => rfl, ?_⟩
  have hsgen := scrapeFor_supported_eq req.court hc req.case_type req.case_number y r rt
  rw [hsgen] at hs
  simp only [Option.some.injEq, Prod.mk.injEq, and_true] at hs
  subst hs
  have hrun := search_case_run_eq st req r rt pr now y _ true hy hsgen
  rw [hok] at hrun
  simp only [Bool.and_self, if_true] at hrun
  rw [hrun]
  simp only [respFavorable]
  rw [predict_generated_favorable]
  by_cases hcl : pr.court_load < 100
  · right
    simp only [hcl, if_true]
    norm_num
  · left
    simp only [hcl, if_false]
    norm_num

/-- Closed instance of `search_case_prediction_C10`. -/
theorem search_case_prediction_C10_witness :
    pyToInt reqDelhi.filing_year = some 2023 ∧ reqDelhi.court ∈ supportedCourts ∧
    scrapeFor reqDelhi.court reqDelhi.case_type reqDelhi.case_number 2023 r0 5 =
      some (some resDelhi, none) ∧
    strptimeAllOk db0 resDelhi = true ∧
    ((∀ ct num cn : String,
      ((generate_mock_data ct num 2023 cn r0).1.find? (fun p => p.1 == "case_type")) = none) ∧
     (respFavorable (search_case db0 reqDelhi r0 5 pr0 0 true).2 = some (1/2) ∨
      respFavorable (search_case db0 reqDelhi r0 5 pr0 0 true).2 = some (3/5))) :=
  ⟨by decide, by decide, rfl, by decide,
    search_case_prediction_C10 db0 reqDelhi r0 5 pr0 0 2023 resDelhi (by decide) (by decide)
      rfl (by decide)⟩

end CourtCase
